import Mathlib

/-!
Verification of the `yosai_dpcache` cache core against its specification.

The development shallowly embeds the Python sources:

* `yosai_dpcache/dogpile/core/dogpile.py` — the dogpile `Lock` protocol
  (`Lock._enter`, `Lock._enter_create`, `Lock._has_value`, `Lock._no_value`);
* `yosai_dpcache/cache/region.py` — `CacheRegion.get`, `CacheRegion.set`,
  `CacheRegion.get_or_create`, `CacheRegion.configure`, `CacheRegion.wrap`;
* `yosai_dpcache/cache/backends/redis.py` — `RedisBackend.get` / `set`
  (a Redis `get` on an absent key yields Python `None`).

Python's dynamically typed values are modelled by the inductive `PyVal`;
Python truthiness, `isinstance(x, Number)` and `isinstance(x, timedelta)`
checks are modelled by executable predicates on `PyVal`.  Mutation is
modelled by explicit state passing, exceptions by `Except`, and a blocking
mutex acquisition that can never succeed (a single-thread deadlock) by
`Option`.  Concurrent executions of `get_or_create` are modelled by an
interleaving small-step relation (`Dogpile.Step`) over explicit
thread-program states.
-/

namespace Yosai

/-- A Python runtime value, as far as the cache core inspects one:
`None`, a number, a string, or a `datetime.timedelta` (modelled by its
total number of seconds, taken integral). -/
inductive PyVal where
  | pyNone
  | pyInt (n : Int)
  | pyStr (s : String)
  | pyTimedelta (totalSeconds : Int)
deriving DecidableEq, Repr

/-- Python truthiness of a `PyVal`: `None`, `0`, `""` and a zero
timedelta are falsy, everything else is truthy. -/
def truthy : PyVal → Bool
  | .pyNone => false
  | .pyInt n => n != 0
  | .pyStr s => s != ""
  | .pyTimedelta t => t != 0

/-- `isinstance(x, numbers.Number)`. -/
def isNumber : PyVal → Bool
  | .pyInt _ => true
  | _ => false

/-- `isinstance(x, datetime.timedelta)`. -/
def isTimedelta : PyVal → Bool
  | .pyTimedelta _ => true
  | _ => false

/-- `compat.timedelta_total_seconds`, applied to a `pyTimedelta`
(modelled with integral seconds, so `int(...)` is the identity). -/
def timedeltaTotalSeconds : PyVal → Int
  | .pyTimedelta t => t
  | _ => 0

/-- The key/value store behind a backend.  An association list from keys
to the stored Python values; a key may be bound to `pyNone` to model a
backend whose `get` yields `None` for a present entry. -/
def Store := List (String × PyVal)

instance : DecidableEq Store := by
  unfold Store
  infer_instance

/-- `RedisBackend.get`: `self.client.get(key)` — returns the stored value,
and Python `None` when the key is absent. -/
def backendGet (store : Store) (key : String) : PyVal :=
  match store.find? (fun p => p.1 == key) with
  | some p => p.2
  | none => .pyNone

/-- `RedisBackend.set`: `self.client.set(key, value, ex=expiration)` —
overwrites the binding for `key`.  (The TTL handed to Redis is observed
separately through `BackendSetCall`.) -/
def backendSet (store : Store) (key : String) (value : PyVal) : Store :=
  (key, value) :: (store.filter (fun p => p.1 != key) : Store)

/-- `if self.key_mangler: key = self.key_mangler(key)` — the region's
optional key mangler; `none` models both `None` and `False` (falsy). -/
def mangle (km : Option (String → String)) (key : String) : String :=
  match km with
  | some f => f key
  | none => key

/-- `CacheRegion.get`: mangles the key and returns `self.backend.get(key)`
unchanged — the raw backend result, with no sentinel substituted. -/
def region_get (km : Option (String → String)) (store : Store) (key : String) : PyVal :=
  backendGet store (mangle km key)

/-- One `backend.set(key, value, expiration)` invocation as the backend
observes it. -/
structure BackendSetCall where
  key : String
  value : PyVal
  ex : PyVal
deriving DecidableEq, Repr

/-- `CacheRegion.set`: mangles the key, resolves
`exp = expiration if expiration else self.expiration_time`
(Python truthiness), and issues the backend write. -/
def region_set (km : Option (String → String)) (expirationTime : PyVal)
    (key : String) (value : PyVal) (expiration : PyVal) : BackendSetCall :=
  let key := mangle km key
  let exp := if truthy expiration then expiration else expirationTime
  ⟨key, value, exp⟩

/-- A backend chain: the constructed backend instance, possibly wrapped
by proxies.  `proxy cls b` is a proxy instance of class `cls` whose
`proxied` reference is `b`; the outermost constructor is what the region
calls. -/
inductive Backend where
  | base (cls : String)
  | proxy (cls : String) (proxied : Backend)
deriving DecidableEq, Repr

/-- Modelled from the spec: `CacheBackend.key_mangler` (the `api` module
is absent from the sources) — "Defaults to None, in which case the key
mangling function recommended by the cache backend will be used"; per
§6 no backend-recommended mangler is part of the core, so the attribute
read by `configure` defaults to `None`. -/
def backendKeyMangler (_ : Backend) : Option String := none

/-- The exceptions `configure`/`wrap` can raise
(`yosai_dpcache/cache/exception.py`, plus Python's `TypeError`). -/
inductive ConfigErr where
  | regionAlreadyConfigured
  | regionNotConfigured
  | pluginNotFound
  | validationError
  | typeError
deriving DecidableEq, Repr

/-- Modelled from the spec: `PluginLoader.load` (`util.py` is absent from
the sources) — §4.4: "`load(name)` resolves a previously registered name
... and fails with a 'backend not found' error if resolution is
impossible."  The registry is the list of registered backend names. -/
def loadBackend (registry : List String) (name : String) : Except ConfigErr String :=
  if name ∈ registry then .ok name else .error .pluginNotFound

/-- The expiration-time validation block of `CacheRegion.configure`
(region.py lines 262-269):
`if not expiration_time or isinstance(expiration_time, Number)` store it
as-is; `elif isinstance(expiration_time, timedelta)` store
`int(timedelta_total_seconds(...))`; else raise `ValidationError`. -/
def validateExpiration (e : PyVal) : Except ConfigErr PyVal :=
  if !(truthy e) || isNumber e then .ok e
  else if isTimedelta e then .ok (.pyInt (timedeltaTotalSeconds e))
  else .error .validationError

/-- The mutable attributes of a `CacheRegion` instance that `configure`
touches.  `backend = none` models `"backend" not in self.__dict__`;
the key manglers are identified by name; `lockRegistryGen` counts how
many `NameRegistry` objects have been assigned to `self._lock_registry`
(0 = never assigned), so a reassignment is observable. -/
structure RegionState where
  backend : Option Backend
  expirationTime : Option PyVal
  keyMangler : Option String
  userKeyMangler : Option String
  lockRegistryGen : Nat
deriving DecidableEq, Repr

/-- A freshly constructed region (`CacheRegion.__init__` with a possibly
user-supplied `key_mangler`):
`self.key_mangler = self._user_defined_key_mangler = key_mangler`. -/
def initRegion (km : Option String) : RegionState :=
  ⟨none, none, km, km, 0⟩

/-- One entry of `configure`'s `wrap` list: a `(ProxyClass, args...)`
tuple, reduced to the class name and whether
`issubclass(proxy[0], ProxyBackend)` holds. -/
structure ProxySpec where
  isProxySubclass : Bool
  cls : String
deriving DecidableEq, Repr

/-- `CacheRegion.wrap`: raises `TypeError` unless the supplied class is a
`ProxyBackend` subclass, then instantiates it and rebinds
`self.backend = proxy.wrap(self.backend)`.  `ProxyBackend.wrap` itself is
modelled from the spec (`proxy.py` is absent from the sources) — §4.4:
"binds the proxy's `proxied` reference to the current outermost backend,
and makes the proxy the new outermost backend". -/
def region_wrap (s : RegionState) (p : ProxySpec) : Except ConfigErr Unit × RegionState :=
  if !p.isProxySubclass then (.error .typeError, s)
  else
    match s.backend with
    | some b => (.ok (), { s with backend := some (.proxy p.cls b) })
    | none => (.error .regionNotConfigured, s)

/-- The `for wrapper in reversed(wrap): self.wrap(wrapper)` loop of
`configure`, applied to an already-reversed list. -/
def wrapAll (s : RegionState) : List ProxySpec → Except ConfigErr Unit × RegionState
  | [] => (.ok (), s)
  | p :: rest =>
    match region_wrap s p with
    | (.ok _, s1) => wrapAll s1 rest
    | (.error e, s1) => (.error e, s1)

/-- `CacheRegion.configure` (region.py lines 206-280), with Python's
mutation semantics made explicit: the region state is returned alongside
the outcome, so attribute assignments performed before an exception is
raised persist.  Statement order follows the source: the
already-configured check, backend loading, `self.backend` assignment,
expiration validation, `self.expiration_time` assignment, the
key-mangler default, `self._lock_registry = NameRegistry(...)`, and the
reversed `wrap` loop. -/
def configure (registry : List String) (s : RegionState)
    (backendName : String) (expirationTime : PyVal)
    (wrap : List ProxySpec) (replaceExistingBackend : Bool) :
    Except ConfigErr Unit × RegionState :=
  if s.backend.isSome && !replaceExistingBackend then
    (.error .regionAlreadyConfigured, s)
  else
    match loadBackend registry backendName with
    | .error e => (.error e, s)
    | .ok cls =>
      let s := { s with backend := some (.base cls) }
      match validateExpiration expirationTime with
      | .error e => (.error e, s)
      | .ok expVal =>
        let s := { s with expirationTime := some expVal }
        let s := if s.userKeyMangler.isNone
          then { s with keyMangler := backendKeyMangler (.base cls) }
          else s
        let s := { s with lockRegistryGen := s.lockRegistryGen + 1 }
        wrapAll s wrap.reverse

/-- The exceptions that can travel through `Lock._enter` /
`get_or_create`: `NeedRegenerationException`, an arbitrary exception
raised by the caller-supplied creation function (tagged by a code), and
the `Exception("Generation function should have just been called by a
concurrent thread.")` raised in `Lock._enter`. -/
inductive Exn where
  | needRegen
  | userExn (code : Nat)
  | genFnFatal
deriving DecidableEq, Repr

/-- The state threaded through one (single-threaded) `get_or_create`
call: the backend store, whether the per-key mutex is currently held,
and instrumentation counters for `mutex.acquire` calls and invocations
of the caller-supplied creation function. -/
structure RState where
  store : Store
  mutexHeld : Bool
  acquireCalls : Nat
  creatorCalls : Nat
deriving DecidableEq

/-- `Lock._has_value`: `createdtime > 0`. -/
def hasValue (createdtime : Int) : Bool := createdtime > 0

/-- `Lock._no_value`: `not self._has_value(createdtime)`. -/
def noValue (createdtime : Int) : Bool := !(hasValue createdtime)

/-- The `get_value` closure of `CacheRegion.get_or_create`: reads the
backend and raises `NeedRegenerationException` when the backend returned
`None` (`if value is None`). -/
def getValue (key : String) (s : RState) : Except Exn PyVal :=
  let value := backendGet s.store key
  if value = .pyNone then .error .needRegen else .ok value

/-- The `gen_value` closure of `CacheRegion.get_or_create`: invokes
`creator_func(creator)` — whose outcome is the parameter `creatorRes` —
and on success writes the created value through
`self.backend.set(key, created_value, expiration)` before returning it.
The invocation is counted even when the creation function raises. -/
def genValue (key : String) (creatorRes : Except Exn PyVal) (s : RState) :
    Except Exn PyVal × RState :=
  let s := { s with creatorCalls := s.creatorCalls + 1 }
  match creatorRes with
  | .ok v => (.ok v, { s with store := backendSet s.store key v })
  | .error e => (.error e, s)

/-- The result of `Lock._enter_create`: the `NOT_REGENERATED` sentinel
or a value. -/
inductive CreateResult where
  | notRegenerated
  | value (v : PyVal)
deriving DecidableEq, Repr

/-- The `try: ... finally: self.mutex.release()` body of
`Lock._enter_create`: re-check `value_and_created_fn` (catching only
`NeedRegenerationException`), otherwise call the creation function; the
mutex is released on every exit path, exceptional ones included. -/
def criticalSection (key : String) (creatorRes : Except Exn PyVal) (s : RState) :
    Except Exn CreateResult × RState :=
  let inner : Except Exn CreateResult × RState :=
    match getValue key s with
    | .ok v => (.ok (.value v), s)
    | .error .needRegen =>
      match genValue key creatorRes s with
      | (.ok v, s1) => (.ok (.value v), s1)
      | (.error e, s1) => (.error e, s1)
    | .error e => (.error e, s)
  (inner.1, { inner.2 with mutexHeld := false })

/-- `Lock._enter_create`.  A `none` result models a blocking
`self.mutex.acquire()` that never returns because the mutex is already
held (the single-caller rendering of a deadlock); the non-blocking
`self.mutex.acquire(False)` branch instead returns `NOT_REGENERATED`
when the mutex is held.  Each `acquire` call site bumps the counter. -/
def enterCreate (key : String) (creatorRes : Except Exn PyVal)
    (createdtime : Int) (s : RState) :
    Option (Except Exn CreateResult × RState) :=
  if !(noValue createdtime) then
    some (.ok .notRegenerated, s)
  else if hasValue createdtime then
    let s := { s with acquireCalls := s.acquireCalls + 1 }
    if s.mutexHeld then
      some (.ok .notRegenerated, s)
    else
      some (criticalSection key creatorRes { s with mutexHeld := true })
  else
    let s := { s with acquireCalls := s.acquireCalls + 1 }
    if s.mutexHeld then
      none
    else
      some (criticalSection key creatorRes { s with mutexHeld := true })

/-- The tail of `Lock._enter` after the first `value_and_created_fn`
call: run `_enter_create` with the computed `createdtime`, then return
`generated` when it is not `NOT_REGENERATED`, re-read the value when the
first read had raised (raising the fatal generation-function `Exception`
if it raises again), and otherwise return the first read's value. -/
def enterRest (key : String) (creatorRes : Except Exn PyVal)
    (valueRead : Option PyVal) (createdtime : Int) (s : RState) :
    Option (Except Exn PyVal × RState) :=
  match enterCreate key creatorRes createdtime s with
  | none => none
  | some (.error e, s1) => some (.error e, s1)
  | some (.ok (.value v), s1) => some (.ok v, s1)
  | some (.ok .notRegenerated, s1) =>
    match valueRead with
    | some v => some (.ok v, s1)
    | none =>
      match getValue key s1 with
      | .ok v => some (.ok v, s1)
      | .error .needRegen => some (.error .genFnFatal, s1)
      | .error e => some (.error e, s1)

/-- `Lock._enter`: call `value_and_created_fn`, catching only
`NeedRegenerationException` (which sets `value = NOT_REGENERATED`,
modelled by `valueRead = none`, and `createdtime = -1`); any other
exception propagates. -/
def enter (key : String) (creatorRes : Except Exn PyVal) (s : RState) :
    Option (Except Exn PyVal × RState) :=
  match getValue key s with
  | .ok v => enterRest key creatorRes (some v) 1 s
  | .error .needRegen => enterRest key creatorRes none (-1) s
  | .error e => some (.error e, s)

/-- `CacheRegion.get_or_create` for one caller: mangle the key, then run
the dogpile `Lock` built from the `gen_value`/`get_value` closures over
the per-key mutex (`with Lock(...) as value: return value`). -/
def getOrCreate (km : Option (String → String)) (key : String)
    (creatorRes : Except Exn PyVal) (s : RState) :
    Option (Except Exn PyVal × RState) :=
  enter (mangle km key) creatorRes s

namespace Dogpile

/-- The control point of one thread running
`get_or_create(K, creator, ...)` for the single key `K`:

* `start`    — about to make the first `get_value` read (`Lock._enter`);
* `waiting`  — the first read returned `None` (so `get_value` raised
  `NeedRegenerationException`, `createdtime = -1`) and the thread is at
  the blocking `self.mutex.acquire()` of `Lock._enter_create`;
* `locked`   — holds the mutex, about to make the double-check read;
* `creating` — the double-check also returned `None`, about to run the
  creation function;
* `done v`   — the call returned `v`. -/
inductive TState where
  | start
  | waiting
  | locked
  | creating
  | done (v : PyVal)
deriving DecidableEq, Repr

/-- A global configuration of `n` threads concurrently executing
`get_or_create` for one key: what `backend.get(K)` currently returns
(`pyNone` = absent or cached `None`), the mutex holder (all threads
obtain the same per-key mutex; modelled from the spec §4.3, the
`NameRegistry` module being absent from the sources: "the same key
always yields the same lock instance"), the number of creation-function
invocations so far, and each thread's control point. -/
structure Config (n : Nat) where
  cstore : PyVal
  lock : Option (Fin n)
  creatorCalls : Nat
  tstate : Fin n → TState

/-- The initial configuration: no value cached for the key, mutex free,
creation function never invoked, every thread about to start. -/
def init (n : Nat) : Config n :=
  ⟨.pyNone, none, 0, fun _ => .start⟩

/-- One interleaving step of the concurrent dogpile protocol, for a
creation function that deterministically produces `v0` and writes it
through `backend.set` (the `gen_value` closure).  Each constructor is
one atomic transition of one thread:

* `readHit`     — first `get_value` read finds a value: the fast path of
  `Lock._enter` (`createdtime = 1`, `_enter_create` returns
  `NOT_REGENERATED` without touching the mutex) returns it;
* `readMiss`    — first read finds `None`: `NeedRegenerationException`,
  `createdtime = -1`, proceed to the blocking acquire;
* `acquire`     — the blocking `mutex.acquire()` succeeds (only when the
  mutex is free);
* `recheckHit`  — the double-check inside the `try` finds a value:
  return it, the `finally` releasing the mutex;
* `recheckMiss` — the double-check raises again: proceed to the creation
  function;
* `create`      — run the creation function: `backend.set` the produced
  value, return it, the `finally` releasing the mutex.  (The creator
  call, the store write and the release happen while no other thread can
  write, so they are folded into one step.) -/
inductive Step (v0 : PyVal) : {n : Nat} → Config n → Config n → Prop
  | readHit {n : Nat} (c : Config n) (i : Fin n) (v : PyVal) :
      c.tstate i = .start → c.cstore = v → v ≠ .pyNone →
      Step v0 c { c with tstate := Function.update c.tstate i (.done v) }
  | readMiss {n : Nat} (c : Config n) (i : Fin n) :
      c.tstate i = .start → c.cstore = .pyNone →
      Step v0 c { c with tstate := Function.update c.tstate i .waiting }
  | acquire {n : Nat} (c : Config n) (i : Fin n) :
      c.tstate i = .waiting → c.lock = none →
      Step v0 c { c with lock := some i,
                         tstate := Function.update c.tstate i .locked }
  | recheckHit {n : Nat} (c : Config n) (i : Fin n) (v : PyVal) :
      c.tstate i = .locked → c.lock = some i → c.cstore = v → v ≠ .pyNone →
      Step v0 c { c with lock := none,
                         tstate := Function.update c.tstate i (.done v) }
  | recheckMiss {n : Nat} (c : Config n) (i : Fin n) :
      c.tstate i = .locked → c.cstore = .pyNone →
      Step v0 c { c with tstate := Function.update c.tstate i .creating }
  | create {n : Nat} (c : Config n) (i : Fin n) :
      c.tstate i = .creating → c.lock = some i →
      Step v0 c { c with cstore := v0,
                         lock := none,
                         creatorCalls := c.creatorCalls + 1,
                         tstate := Function.update c.tstate i (.done v0) }

/-- Configurations reachable from `init n` by interleaved steps. -/
def Reachable (v0 : PyVal) (n : Nat) (c : Config n) : Prop :=
  Relation.ReflTransGen (Step v0) (init n) c

/-- Every thread has returned. -/
def Terminal {n : Nat} (c : Config n) : Prop :=
  ∀ i : Fin n, ∃ v, c.tstate i = .done v

/-- The inductive invariant of the protocol (for a creation function
producing an actual value `v0 ≠ None`):

* the cached value is absent or `v0`;
* the creation function has run exactly once iff a value is cached;
* threads inside the critical section hold the mutex, and conversely;
* a thread about to create has just double-checked absence;
* every returned value is `v0`, returned only once a value is cached. -/
structure Inv (v0 : PyVal) {n : Nat} (c : Config n) : Prop where
  storeCases : c.cstore = .pyNone ∨ c.cstore = v0
  countStore : c.creatorCalls = (if c.cstore = .pyNone then 0 else 1)
  holdsLock : ∀ i : Fin n,
    (c.tstate i = .locked ∨ c.tstate i = .creating) → c.lock = some i
  lockHeld : ∀ i : Fin n,
    c.lock = some i → c.tstate i = .locked ∨ c.tstate i = .creating
  creatingMiss : ∀ i : Fin n, c.tstate i = .creating → c.cstore = .pyNone
  doneVal : ∀ (i : Fin n) (v : PyVal),
    c.tstate i = .done v → v = v0 ∧ c.cstore = v0

lemma inv_init (v0 : PyVal) (n : Nat) : Inv v0 (init n) := by
  refine ⟨Or.inl rfl, by simp [init], ?_, ?_, ?_, ?_⟩
  · intro i h
    simp [init] at h
  · intro i h
    simp [init] at h
  · intro i h
    simp [init] at h
  · intro i v h
    simp [init] at h

lemma inv_step {v0 : PyVal} (hv : v0 ≠ .pyNone) {n : Nat} {c c' : Config n}
    (hinv : Inv v0 c) (hstep : Step v0 c c') : Inv v0 c' := by
  cases hstep with
  | readHit i v hi hs hvne =>
    refine ⟨hinv.storeCases, hinv.countStore, ?_, ?_, ?_, ?_⟩
    · intro j hj
      rcases eq_or_ne j i with rfl | hne
      · simp [Function.update_same] at hj
      · simp only [Function.update_noteq hne] at hj
        exact hinv.holdsLock j hj
    · intro j hj
      have hj' := hinv.lockHeld j hj
      rcases eq_or_ne j i with rfl | hne
      · rw [hi] at hj'
        simp at hj'
      · simpa only [Function.update_noteq hne] using hj'
    · intro j hj
      rcases eq_or_ne j i with rfl | hne
      · simp [Function.update_same] at hj
      · simp only [Function.update_noteq hne] at hj
        exact hinv.creatingMiss j hj
    · intro j w hj
      rcases eq_or_ne j i with rfl | hne
      · simp only [Function.update_same] at hj
        cases hj
        rcases hinv.storeCases with h0 | h0
        · rw [h0] at hs
          exact absurd hs.symm hvne
        · rw [h0] at hs
          exact ⟨hs.symm, h0⟩
      · simp only [Function.update_noteq hne] at hj
        exact hinv.doneVal j w hj
  | readMiss i hi hs =>
    refine ⟨hinv.storeCases, hinv.countStore, ?_, ?_, ?_, ?_⟩
    · intro j hj
      rcases eq_or_ne j i with rfl | hne
      · simp [Function.update_same] at hj
      · simp only [Function.update_noteq hne] at hj
        exact hinv.holdsLock j hj
    · intro j hj
      have hj' := hinv.lockHeld j hj
      rcases eq_or_ne j i with rfl | hne
      · rw [hi] at hj'
        simp at hj'
      · simpa only [Function.update_noteq hne] using hj'
    · intro j hj
      rcases eq_or_ne j i with rfl | hne
      · simp [Function.update_same] at hj
      · simp only [Function.update_noteq hne] at hj
        exact hinv.creatingMiss j hj
    · intro j w hj
      rcases eq_or_ne j i with rfl | hne
      · simp [Function.update_same] at hj
      · simp only [Function.update_noteq hne] at hj
        exact hinv.doneVal j w hj
  | acquire i hi hl =>
    refine ⟨hinv.storeCases, hinv.countStore, ?_, ?_, ?_, ?_⟩
    · intro j hj
      rcases eq_or_ne j i with rfl | hne
      · rfl
      · simp only [Function.update_noteq hne] at hj
        have := hinv.holdsLock j hj
        rw [hl] at this
        cases this
    · intro j hj
      have hji : i = j := by
        simpa using hj
      subst hji
      exact Or.inl (Function.update_same _ _ _)
    · intro j hj
      rcases eq_or_ne j i with rfl | hne
      · simp [Function.update_same] at hj
      · simp only [Function.update_noteq hne] at hj
        exact hinv.creatingMiss j hj
    · intro j w hj
      rcases eq_or_ne j i with rfl | hne
      · simp [Function.update_same] at hj
      · simp only [Function.update_noteq hne] at hj
        exact hinv.doneVal j w hj
  | recheckHit i v hi hl hs hvne =>
    refine ⟨hinv.storeCases, hinv.countStore, ?_, ?_, ?_, ?_⟩
    · intro j hj
      rcases eq_or_ne j i with rfl | hne
      · simp [Function.update_same] at hj
      · simp only [Function.update_noteq hne] at hj
        have := hinv.holdsLock j hj
        rw [hl] at this
        cases this
        exact absurd rfl hne
    · intro j hj
      cases hj
    · intro j hj
      rcases eq_or_ne j i with rfl | hne
      · simp [Function.update_same] at hj
      · simp only [Function.update_noteq hne] at hj
        have := hinv.holdsLock j (Or.inr hj)
        rw [hl] at this
        cases this
        exact absurd rfl hne
    · intro j w hj
      rcases eq_or_ne j i with rfl | hne
      · simp only [Function.update_same] at hj
        cases hj
        rcases hinv.storeCases with h0 | h0
        · rw [h0] at hs
          exact absurd hs.symm hvne
        · rw [h0] at hs
          exact ⟨hs.symm, h0⟩
      · simp only [Function.update_noteq hne] at hj
        exact hinv.doneVal j w hj
  | recheckMiss i hi hs =>
    refine ⟨hinv.storeCases, hinv.countStore, ?_, ?_, ?_, ?_⟩
    · intro j hj
      rcases eq_or_ne j i with rfl | hne
      · exact hinv.holdsLock j (Or.inl hi)
      · simp only [Function.update_noteq hne] at hj
        exact hinv.holdsLock j hj
    · intro j hj
      have hj' := hinv.lockHeld j hj
      rcases eq_or_ne j i with rfl | hne
      · exact Or.inr (Function.update_same _ _ _)
      · simpa only [Function.update_noteq hne] using hj'
    · intro j hj
      exact hs
    · intro j w hj
      rcases eq_or_ne j i with rfl | hne
      · simp [Function.update_same] at hj
      · simp only [Function.update_noteq hne] at hj
        exact hinv.doneVal j w hj
  | create i hi hl =>
    have hmiss : c.cstore = .pyNone := hinv.creatingMiss i hi
    have hcount : c.creatorCalls = 0 := by
      have := hinv.countStore
      rwa [if_pos hmiss] at this
    refine ⟨Or.inr rfl, ?_, ?_, ?_, ?_, ?_⟩
    · show c.creatorCalls + 1 = if v0 = PyVal.pyNone then 0 else 1
      rw [if_neg hv, hcount]
    · intro j hj
      rcases eq_or_ne j i with rfl | hne
      · simp [Function.update_same] at hj
      · simp only [Function.update_noteq hne] at hj
        have := hinv.holdsLock j hj
        rw [hl] at this
        cases this
        exact absurd rfl hne
    · intro j hj
      cases hj
    · intro j hj
      rcases eq_or_ne j i with rfl | hne
      · simp [Function.update_same] at hj
      · simp only [Function.update_noteq hne] at hj
        have := hinv.holdsLock j (Or.inr hj)
        rw [hl] at this
        cases this
        exact absurd rfl hne
    · intro j w hj
      rcases eq_or_ne j i with rfl | hne
      · simp only [Function.update_same] at hj
        cases hj
        exact ⟨rfl, rfl⟩
      · simp only [Function.update_noteq hne] at hj
        obtain ⟨rfl, hcs⟩ := hinv.doneVal j w hj
        rw [hcs] at hmiss
        exact absurd hmiss hv

/-- Every reachable configuration satisfies the invariant, provided the
creation function produces an actual (non-`None`) value. -/
lemma inv_reachable {v0 : PyVal} (hv : v0 ≠ .pyNone) {n : Nat} {c : Config n}
    (h : Reachable v0 n c) : Inv v0 c := by
  induction h with
  | refl => exact inv_init v0 n
  | tail _ hs ih => exact inv_step hv ih hs

end Dogpile

/-! Computation lemmas for the single-caller `get_or_create` embedding. -/

lemma getValue_hit {km : Option (String → String)} {key : String} {s : RState}
    (h : backendGet s.store (mangle km key) ≠ .pyNone) :
    getValue (mangle km key) s = .ok (backendGet s.store (mangle km key)) := by
  unfold getValue
  simp [h]

lemma getValue_miss {km : Option (String → String)} {key : String} {s : RState}
    (h : backendGet s.store (mangle km key) = .pyNone) :
    getValue (mangle km key) s = .error .needRegen := by
  unfold getValue
  simp [h]

/-- A cache hit takes the fast path: the cached value is returned and the
state — mutex, both instrumentation counters, the store — is untouched. -/
lemma getOrCreate_hit (km : Option (String → String)) (key : String)
    (cr : Except Exn PyVal) (s : RState)
    (h : backendGet s.store (mangle km key) ≠ .pyNone) :
    getOrCreate km key cr s = some (.ok (backendGet s.store (mangle km key)), s) := by
  unfold getOrCreate enter enterRest enterCreate
  simp [getValue, noValue, hasValue, h]

/-- A cache miss with a succeeding creation function: the mutex is
acquired once, the creation function runs once, the created value is
written through `backend.set` and returned, and the mutex ends up
released. -/
lemma getOrCreate_miss_ok (km : Option (String → String)) (key : String)
    (v : PyVal) (s : RState)
    (h1 : backendGet s.store (mangle km key) = .pyNone)
    (h2 : s.mutexHeld = false) :
    getOrCreate km key (.ok v) s
      = some (.ok v, ⟨backendSet s.store (mangle km key) v, false,
                      s.acquireCalls + 1, s.creatorCalls + 1⟩) := by
  unfold getOrCreate enter enterRest enterCreate criticalSection genValue
  simp [getValue, noValue, hasValue, h1, h2]

/-- A cache miss with a raising creation function: the exception
propagates to the caller through the `finally`, the mutex ends up
released, and the store is unchanged. -/
lemma getOrCreate_miss_error (km : Option (String → String)) (key : String)
    (e : Exn) (s : RState)
    (h1 : backendGet s.store (mangle km key) = .pyNone)
    (h2 : s.mutexHeld = false) :
    getOrCreate km key (.error e) s
      = some (.error e, ⟨s.store, false, s.acquireCalls + 1, s.creatorCalls + 1⟩) := by
  unfold getOrCreate enter enterRest enterCreate criticalSection genValue
  simp [getValue, noValue, hasValue, h1, h2]

/-- Starting from a free mutex, every `get_or_create` call completes
(no deadlock) and leaves the mutex free again. -/
lemma getOrCreate_total (km : Option (String → String)) (key : String)
    (cr : Except Exn PyVal) (s : RState) (h2 : s.mutexHeld = false) :
    ∃ r s1, getOrCreate km key cr s = some (r, s1) ∧ s1.mutexHeld = false := by
  by_cases h1 : backendGet s.store (mangle km key) = .pyNone
  · cases cr with
    | ok v => exact ⟨_, _, getOrCreate_miss_ok km key v s h1 h2, rfl⟩
    | error e => exact ⟨_, _, getOrCreate_miss_error km key e s h1 h2, rfl⟩
  · exact ⟨_, _, getOrCreate_hit km key cr s h1, h2⟩

/-- The backend write performed on regeneration is visible to a
subsequent backend read of the same key. -/
lemma backendGet_backendSet (store : Store) (key : String) (v : PyVal) :
    backendGet (backendSet store key v) key = v := by
  unfold backendGet backendSet
  simp [List.find?]

/-- The `wrap` loop of `configure` only rebinds `self.backend`; every
other region attribute is preserved. -/
lemma wrapAll_preserves (l : List ProxySpec) (s : RegionState) :
    (wrapAll s l).2.expirationTime = s.expirationTime ∧
    (wrapAll s l).2.keyMangler = s.keyMangler ∧
    (wrapAll s l).2.userKeyMangler = s.userKeyMangler ∧
    (wrapAll s l).2.lockRegistryGen = s.lockRegistryGen := by
  induction l generalizing s with
  | nil => exact ⟨rfl, rfl, rfl, rfl⟩
  | cons p rest ih =>
    unfold wrapAll region_wrap
    by_cases hp : p.isProxySubclass
    · cases hb : s.backend with
      | some b =>
        simp only [hp, hb]
        simpa using ih { s with backend := some (.proxy p.cls b) }
      | none =>
        simp [hp, hb]
    · simp [hp]

namespace Dogpile

/-- A concrete one-thread execution used to witness the concurrency
theorem: its final configuration. -/
def wcfg : Config 1 := ⟨.pyInt 42, none, 1, fun _ => .done (.pyInt 42)⟩

def w0 : Config 1 := init 1

def w1 : Config 1 := { w0 with tstate := Function.update w0.tstate 0 .waiting }

def w2 : Config 1 :=
  { w1 with lock := some 0, tstate := Function.update w1.tstate 0 .locked }

def w3 : Config 1 := { w2 with tstate := Function.update w2.tstate 0 .creating }

def w4 : Config 1 :=
  { w3 with cstore := .pyInt 42, lock := none,
            creatorCalls := w3.creatorCalls + 1,
            tstate := Function.update w3.tstate 0 (.done (.pyInt 42)) }

lemma w4_eq_wcfg : w4 = wcfg := by
  unfold w4 wcfg w3 w2 w1 w0 init
  congr 1
  funext i
  have hi : i = 0 := Subsingleton.elim i 0
  subst hi
  rfl

lemma wcfg_reachable : Reachable (.pyInt 42) 1 wcfg := by
  rw [← w4_eq_wcfg]
  have s1 : Step (.pyInt 42) w0 w1 := .readMiss w0 0 rfl rfl
  have s2 : Step (.pyInt 42) w1 w2 := .acquire w1 0 rfl rfl
  have s3 : Step (.pyInt 42) w2 w3 := .recheckMiss w2 0 rfl rfl
  have s4 : Step (.pyInt 42) w3 w4 := .create w3 0 rfl rfl
  exact .tail (.tail (.tail (.tail .refl s1) s2) s3) s4

end Dogpile

/-- C1: among `n` concurrent `get_or_create` calls for the same key on a
cache with no value for it, once every call has returned, the creation
function has been invoked exactly once across all calls, and every call
returned the value it produced (assuming the creation function produces
an actual value, i.e. not Python `None` — a `None`-producing creator is
re-run, since the protocol equates `None` with "no value"). -/
theorem get_or_create_concurrent_creator_once {n : Nat} {v0 : PyVal}
    {c : Dogpile.Config n} (hn : 0 < n) (hv : v0 ≠ .pyNone)
    (hreach : Dogpile.Reachable v0 n c) (hterm : Dogpile.Terminal c) :
    c.creatorCalls = 1 ∧ ∀ i : Fin n, c.tstate i = .done v0 := by
  have hinv := Dogpile.inv_reachable hv hreach
  have hall : ∀ i : Fin n, c.tstate i = .done v0 := by
    intro i
    obtain ⟨v, hvi⟩ := hterm i
    obtain ⟨rfl, -⟩ := hinv.doneVal i v hvi
    exact hvi
  refine ⟨?_, hall⟩
  obtain ⟨v, hvi⟩ := hterm ⟨0, hn⟩
  obtain ⟨-, hcs⟩ := hinv.doneVal _ v hvi
  have hcount := hinv.countStore
  rw [hcs, if_neg hv] at hcount
  exact hcount

/-- Witness for C1: a complete concrete execution with one thread and a
creator producing `42`. -/
theorem get_or_create_concurrent_creator_once_witness :
    Dogpile.wcfg.creatorCalls = 1 ∧
    ∀ i : Fin 1, Dogpile.wcfg.tstate i = .done (.pyInt 42) :=
  get_or_create_concurrent_creator_once Nat.one_pos (by decide)
    Dogpile.wcfg_reachable (fun _ => ⟨.pyInt 42, rfl⟩)

/-- C2 (code bug): `CacheRegion.get` promises in its docstring to return
a `NO_VALUE` token "separate from `None`" for an absent key, but the
code returns `self.backend.get(key)` unchanged, and `RedisBackend.get`
yields Python `None` for an absent key.  No `NO_VALUE` sentinel exists
anywhere in the sources.  Evaluating the embedded code: a `get` on an
absent key and a `get` on a key whose cached value is `None` both return
`None` — the two situations are indistinguishable to a caller. -/
theorem region_get_absent_returns_python_none :
    region_get none ([] : Store) "k" = .pyNone ∧
    region_get none ([("k", .pyNone)] : Store) "k" = .pyNone := by
  constructor <;> rfl

/-- C3: whenever `get_or_create` starts with the per-key mutex free, the
call completes (for every creator outcome, including a raising creator)
with the mutex free again, and any subsequent `get_or_create` issued
from the resulting state also completes with the mutex free — the
`finally` of `Lock._enter_create` releases the mutex on every exit path,
so no lock is leaked and no deadlock arises. -/
theorem get_or_create_releases_mutex (km : Option (String → String))
    (key : String) (cr : Except Exn PyVal) (s : RState)
    (h : s.mutexHeld = false) :
    ∃ r s1, getOrCreate km key cr s = some (r, s1) ∧ s1.mutexHeld = false ∧
      ∀ (km2 : Option (String → String)) (key2 : String) (cr2 : Except Exn PyVal),
        ∃ r2 s2, getOrCreate km2 key2 cr2 s1 = some (r2, s2) ∧
          s2.mutexHeld = false := by
  obtain ⟨r, s1, heq, hfree⟩ := getOrCreate_total km key cr s h
  exact ⟨r, s1, heq, hfree, fun km2 key2 cr2 => getOrCreate_total km2 key2 cr2 s1 hfree⟩

/-- Witness for C3: a raising creator on an empty cache; the call
reports the exception, releases the mutex, and a second call succeeds. -/
theorem get_or_create_releases_mutex_witness :
    ∃ r s1, getOrCreate none "k" (.error (.userExn 3)) ⟨[], false, 0, 0⟩
        = some (r, s1) ∧ s1.mutexHeld = false ∧
      ∀ (km2 : Option (String → String)) (key2 : String) (cr2 : Except Exn PyVal),
        ∃ r2 s2, getOrCreate km2 key2 cr2 s1 = some (r2, s2) ∧
          s2.mutexHeld = false :=
  get_or_create_releases_mutex none "k" (.error (.userExn 3)) ⟨[], false, 0, 0⟩ rfl

/-- C4: when the read-existing function returns a value (the backend
read is not `None`), `get_or_create` returns that value immediately:
the final state equals the initial state, so in particular
`mutex.acquire` is never called (`acquireCalls` unchanged) and the
creation function is never invoked (`creatorCalls` unchanged). -/
theorem get_or_create_fast_path (km : Option (String → String))
    (key : String) (cr : Except Exn PyVal) (s : RState)
    (h : backendGet s.store (mangle km key) ≠ .pyNone) :
    getOrCreate km key cr s = some (.ok (backendGet s.store (mangle km key)), s) :=
  getOrCreate_hit km key cr s h

/-- Witness for C4: a cached value `7` is returned untouched, counters
included. -/
theorem get_or_create_fast_path_witness :
    getOrCreate none "k" (.ok (.pyInt 1)) ⟨[("k", .pyInt 7)], false, 0, 0⟩
      = some (.ok (.pyInt 7), ⟨[("k", .pyInt 7)], false, 0, 0⟩) :=
  get_or_create_fast_path none "k" (.ok (.pyInt 1))
    ⟨[("k", .pyInt 7)], false, 0, 0⟩ (by decide)

/-- C9: when the creation function itself raises
`NeedRegenerationException` during a `get_or_create` miss, the exception
propagates through the releasing `finally` to the caller as an error
outcome — it is never silently swallowed into a normal return — whereas
an ordinary cache miss (succeeding creator) returns a value normally, so
the failure is distinguishable from an ordinary miss. -/
theorem creator_need_regen_propagates (km : Option (String → String))
    (key : String) (s : RState)
    (h1 : backendGet s.store (mangle km key) = .pyNone)
    (h2 : s.mutexHeld = false) :
    getOrCreate km key (.error .needRegen) s
      = some (.error .needRegen,
              ⟨s.store, false, s.acquireCalls + 1, s.creatorCalls + 1⟩) ∧
    ∀ v : PyVal, getOrCreate km key (.ok v) s
      = some (.ok v, ⟨backendSet s.store (mangle km key) v, false,
                      s.acquireCalls + 1, s.creatorCalls + 1⟩) :=
  ⟨getOrCreate_miss_error km key .needRegen s h1 h2,
   fun v => getOrCreate_miss_ok km key v s h1 h2⟩

/-- Witness for C9 on an empty cache: the raising creator surfaces as an
error, while a creator producing `9` returns normally. -/
theorem creator_need_regen_propagates_witness :
    getOrCreate none "k" (.error .needRegen) ⟨[], false, 0, 0⟩
      = some (.error .needRegen, ⟨[], false, 1, 1⟩) ∧
    getOrCreate none "k" (.ok (.pyInt 9)) ⟨[], false, 0, 0⟩
      = some (.ok (.pyInt 9), ⟨[("k", .pyInt 9)], false, 1, 1⟩) :=
  ⟨(creator_need_regen_propagates none "k" ⟨[], false, 0, 0⟩ rfl rfl).1,
   (creator_need_regen_propagates none "k" ⟨[], false, 0, 0⟩ rfl rfl).2 (.pyInt 9)⟩

/-- C10: "a value is present" is decided by whether the backend read
yields `None`.  Whenever `backend.get` on the mangled key yields `None`
— the key being absent and the cached value being literally `None` are
indistinguishable — the read-existing closure raises
`NeedRegenerationException`, the creation function is invoked (counter
bumped), the entry is overwritten through `backend.set`, and the call
returns the creator's value; hence any `None` that `get_or_create`
returns is the creator's output, never a cached `None`. -/
theorem get_or_create_regenerates_on_none (km : Option (String → String))
    (key : String) (v : PyVal) (s : RState)
    (h1 : backendGet s.store (mangle km key) = .pyNone)
    (h2 : s.mutexHeld = false) :
    getValue (mangle km key) s = .error .needRegen ∧
    getOrCreate km key (.ok v) s
      = some (.ok v, ⟨backendSet s.store (mangle km key) v, false,
                      s.acquireCalls + 1, s.creatorCalls + 1⟩) ∧
    backendGet (backendSet s.store (mangle km key) v) (mangle km key) = v :=
  ⟨getValue_miss h1, getOrCreate_miss_ok km key v s h1 h2,
   backendGet_backendSet s.store (mangle km key) v⟩

/-- Witness for C10: a key whose cached value is literally `None` is
regenerated and overwritten. -/
theorem get_or_create_regenerates_on_none_witness :
    getValue "k" ⟨[("k", .pyNone)], false, 0, 0⟩ = .error .needRegen ∧
    getOrCreate none "k" (.ok (.pyInt 5)) ⟨[("k", .pyNone)], false, 0, 0⟩
      = some (.ok (.pyInt 5), ⟨[("k", .pyInt 5)], false, 1, 1⟩) ∧
    backendGet [(("k" : String), PyVal.pyInt 5)] "k" = .pyInt 5 :=
  get_or_create_regenerates_on_none none "k" (.pyInt 5)
    ⟨[("k", .pyNone)], false, 0, 0⟩ (by decide) rfl

lemma wrapAll_expirationTime (l : List ProxySpec) (s : RegionState) :
    (wrapAll s l).2.expirationTime = s.expirationTime :=
  (wrapAll_preserves l s).1

/-- C5 counterexample: a `configure` call that fails on expiration
validation does NOT leave the region state untouched — the already
configured backend `redis` has been replaced by the newly constructed
`memcached` backend when `ValidationError` is raised, because
`self.backend` is assigned before the expiration check. -/
theorem configure_validation_failure_mutates :
    configure ["redis", "memcached"]
        ⟨some (.base "redis"), some (.pyInt 60), none, none, 1⟩
        "memcached" (.pyStr "bad") [] true
      = (.error .validationError,
         ⟨some (.base "memcached"), some (.pyInt 60), none, none, 1⟩) ∧
    some (Backend.base "memcached") ≠ some (Backend.base "redis") :=
  ⟨rfl, by decide⟩

/-- C5 (amended): a failure from the already-configured guard or from
backend-name resolution leaves the region state exactly as it was,
because both are raised before any mutation; a failure from expiration
validation is raised after `self.backend` has been assigned, so the
resulting state is the prior state with only the backend replaced by the
newly constructed one (expiration time, key manglers and the mutex
registry are untouched). -/
theorem configure_failure_state_effects
    (registry : List String) (s : RegionState) (name : String) (e : PyVal)
    (w : List ProxySpec) (r : Bool) :
    ((s.backend.isSome && !r) = true →
      configure registry s name e w r = (.error .regionAlreadyConfigured, s)) ∧
    ((s.backend.isSome && !r) = false → name ∉ registry →
      configure registry s name e w r = (.error .pluginNotFound, s)) ∧
    ((s.backend.isSome && !r) = false → name ∈ registry →
      truthy e = true → isNumber e = false → isTimedelta e = false →
      configure registry s name e w r
        = (.error .validationError, { s with backend := some (.base name) })) := by
  refine ⟨?_, ?_, ?_⟩
  · intro hg
    simp [configure, hg]
  · intro hg hreg
    simp [configure, hg, loadBackend, hreg]
  · intro hg hreg ht hn htd
    simp [configure, hg, loadBackend, hreg, validateExpiration, ht, hn, htd]

/-- Witness for C5 (amended), validation-failure branch: the first-ever
`configure` of a fresh region with a bad expiration fails but still
installs the backend. -/
theorem configure_failure_state_effects_witness :
    configure ["redis"] (initRegion none) "redis" (.pyStr "bad") [] false
      = (.error .validationError,
         { initRegion none with backend := some (.base "redis") }) :=
  (configure_failure_state_effects ["redis"] (initRegion none) "redis"
      (.pyStr "bad") [] false).2.2 rfl (by decide) rfl rfl rfl

/-- C6 counterexample: `None` is neither a number nor a timedelta, yet
`configure` does not raise `ValidationError` on it — the guard
`if not expiration_time or isinstance(expiration_time, Number)` accepts
every falsy value and stores it as-is. -/
theorem configure_accepts_none_expiration :
    isNumber .pyNone = false ∧ isTimedelta .pyNone = false ∧
    configure ["redis"] (initRegion none) "redis" .pyNone [] false
      = (.ok (), ⟨some (.base "redis"), some .pyNone, none, none, 1⟩) :=
  ⟨rfl, rfl, rfl⟩

/-- C6 (amended): a TRUTHY expiration value that is neither a number nor
a timedelta raises `ValidationError`; any falsy value (`None`, `0`,
`""`, a zero timedelta) is stored as-is without validation, as is any
number; a truthy timedelta is stored as the integer part of its total
seconds. -/
theorem configure_expiration_validation
    (registry : List String) (s : RegionState) (name : String) (e : PyVal)
    (w : List ProxySpec) (r : Bool)
    (hg : (s.backend.isSome && !r) = false) (hreg : name ∈ registry) :
    (truthy e = true → isNumber e = false → isTimedelta e = false →
      configure registry s name e w r
        = (.error .validationError, { s with backend := some (.base name) })) ∧
    (truthy e = false →
      (configure registry s name e w r).2.expirationTime = some e) ∧
    (isNumber e = true →
      (configure registry s name e w r).2.expirationTime = some e) ∧
    (truthy e = true → isTimedelta e = true →
      (configure registry s name e w r).2.expirationTime
        = some (.pyInt (timedeltaTotalSeconds e))) := by
  refine ⟨?_, ?_, ?_, ?_⟩
  · intro ht hn htd
    simp [configure, hg, loadBackend, hreg, validateExpiration, ht, hn, htd]
  · intro ht
    have hval : validateExpiration e = .ok e := by
      simp [validateExpiration, ht]
    by_cases hk : s.userKeyMangler.isNone <;>
      simp [configure, hg, loadBackend, hreg, hval, hk, wrapAll_expirationTime]
  · intro hn
    have hval : validateExpiration e = .ok e := by
      simp [validateExpiration, hn]
    by_cases hk : s.userKeyMangler.isNone <;>
      simp [configure, hg, loadBackend, hreg, hval, hk, wrapAll_expirationTime]
  · intro ht htd
    have hval : validateExpiration e = .ok (.pyInt (timedeltaTotalSeconds e)) := by
      cases e <;> simp_all [validateExpiration, truthy, isNumber, isTimedelta]
    by_cases hk : s.userKeyMangler.isNone <;>
      simp [configure, hg, loadBackend, hreg, hval, hk, wrapAll_expirationTime]

/-- Witness for C6 (amended): a 90-second timedelta is stored as the
number `90`. -/
theorem configure_expiration_validation_witness :
    (configure ["redis"] (initRegion none) "redis" (.pyTimedelta 90) [] false).2.expirationTime
      = some (.pyInt 90) :=
  (configure_expiration_validation ["redis"] (initRegion none) "redis"
      (.pyTimedelta 90) [] false rfl (by decide)).2.2.2 rfl rfl

/-- C7: configuring with the declared proxy list `[A, B]` wraps in
reverse iteration order, so the resulting chain is
`A (outermost) → B → base backend`: the first declared entry is closest
to the caller. -/
theorem configure_wrap_declared_order
    (registry : List String) (s : RegionState) (name : String) (e e' : PyVal)
    (a b : String)
    (hb : s.backend = none) (hreg : name ∈ registry)
    (hval : validateExpiration e = .ok e') :
    (configure registry s name e [⟨true, a⟩, ⟨true, b⟩] false).1 = .ok () ∧
    (configure registry s name e [⟨true, a⟩, ⟨true, b⟩] false).2.backend
      = some (.proxy a (.proxy b (.base name))) := by
  have hg : (s.backend.isSome && !false) = false := by
    simp [hb]
  by_cases hk : s.userKeyMangler.isNone <;>
    simp [configure, hg, hb, loadBackend, hreg, hval, hk, wrapAll, region_wrap]

/-- Witness for C7: proxies `serialization` then `logging` over a Redis
backend. -/
theorem configure_wrap_declared_order_witness :
    (configure ["redis"] (initRegion none) "redis" .pyNone
        [⟨true, "serialization"⟩, ⟨true, "logging"⟩] false).1 = .ok () ∧
    (configure ["redis"] (initRegion none) "redis" .pyNone
        [⟨true, "serialization"⟩, ⟨true, "logging"⟩] false).2.backend
      = some (.proxy "serialization" (.proxy "logging" (.base "redis"))) :=
  configure_wrap_declared_order ["redis"] (initRegion none) "redis"
    .pyNone .pyNone "serialization" "logging" rfl (by decide) rfl

/-- C8 counterexample: with a region default of `100`, an explicitly
supplied expiration of `0` is NOT used for the backend write — `0` is
falsy, so `exp = expiration if expiration else self.expiration_time`
falls back to the default `100`. -/
theorem region_set_explicit_zero_ignored :
    region_set none (.pyInt 100) "k" (.pyStr "v") (.pyInt 0)
      = ⟨"k", .pyStr "v", .pyInt 100⟩ ∧
    (PyVal.pyInt 100) ≠ (.pyInt 0) :=
  ⟨rfl, by decide⟩

/-- C8 (amended): the backend write uses the explicitly supplied
expiration only when it is truthy; a falsy explicit expiration (`None`,
`0`) falls back to the region default, and when both the explicit
argument and the default are `None` no expiration is applied. -/
theorem region_set_expiration_resolution (km : Option (String → String))
    (d : PyVal) (key : String) (value : PyVal) (e : PyVal) :
    (truthy e = true → region_set km d key value e = ⟨mangle km key, value, e⟩) ∧
    (truthy e = false → region_set km d key value e = ⟨mangle km key, value, d⟩) ∧
    (e = .pyNone → d = .pyNone → (region_set km d key value e).ex = .pyNone) := by
  refine ⟨?_, ?_, ?_⟩
  · intro h
    simp [region_set, h]
  · intro h
    simp [region_set, h]
  · rintro rfl rfl
    simp [region_set, truthy]

/-- Witness for C8 (amended): a truthy explicit expiration `5` overrides
the default `100`. -/
theorem region_set_expiration_resolution_witness :
    region_set none (.pyInt 100) "k" (.pyStr "v") (.pyInt 5)
      = ⟨"k", .pyStr "v", .pyInt 5⟩ :=
  (region_set_expiration_resolution none (.pyInt 100) "k" (.pyStr "v") (.pyInt 5)).1 rfl

end Yosai
